import Mathlib

/-!
Verification development for the easygit synchronization reconciliation
engine (src/commands/sync.js).  The JavaScript source is embedded
shallowly: pure decision logic becomes Lean functions, the fallible
adapter calls (push, rebase, merge, stash, ls-remote, file I/O) are
parameterized by an environment describing their outcomes, and the
observable side effects of one invocation are collected into a trace of
events.  Machine-irrelevant logging is dropped; control flow (including
the try/finally bracket in executeSyncStrategy and the try/catch message
dispatch in the handlers) is translated statement by statement.
-/

namespace EasyGit

/-- Classification values returned by determineSyncStatus in sync.js
(the string literals of the source become constructors; the final
fall-through return of the string for an unknown status is kept as a
constructor as well). -/
inductive SyncStatus
  | upToDate
  | ahead
  | behind
  | diverged
  | newBranch
  | unknown
deriving DecidableEq, Repr

/-- Shallow embedding of determineSyncStatus(ahead, behind, hasRemoteBranch)
from sync.js lines 162-184; commit counts are natural numbers. -/
def determineSyncStatus (ahead behind : Nat) (hasRemoteBranch : Bool) : SyncStatus :=
  if !hasRemoteBranch then
    SyncStatus.newBranch
  else if ahead == 0 && behind == 0 then
    SyncStatus.upToDate
  else if decide (0 < ahead) && behind == 0 then
    SyncStatus.ahead
  else if ahead == 0 && decide (0 < behind) then
    SyncStatus.behind
  else if decide (0 < ahead) && decide (0 < behind) then
    SyncStatus.diverged
  else
    SyncStatus.unknown

/-- Classification rule transcribed from the specification text (section 3),
kept separate from the source embedding so the two can be compared:
new-branch when the remote branch does not exist, else up-to-date, ahead,
behind or diverged by the sign pattern of the two counts. -/
def specClassification (remoteBranchExists : Bool) (aheadCount behindCount : Nat) : SyncStatus :=
  if remoteBranchExists = false then SyncStatus.newBranch
  else if aheadCount = 0 ∧ behindCount = 0 then SyncStatus.upToDate
  else if 0 < aheadCount ∧ behindCount = 0 then SyncStatus.ahead
  else if aheadCount = 0 ∧ 0 < behindCount then SyncStatus.behind
  else SyncStatus.diverged

/-- Result of the repository-state queries that analyzeBranchState performs
through the git adapter: status.ahead, status.behind, branches.all,
status.isClean(), plus the repository check done by execute. -/
structure RepoInputs where
  isRepo : Bool
  currentBranch : String
  ahead : Nat
  behind : Nat
  branchesAll : List String
  isClean : Bool
deriving DecidableEq, Repr

/-- Record built by analyzeBranchState in sync.js lines 131-160. -/
structure BranchState where
  currentBranch : String
  remote : String
  remoteBranch : String
  hasRemoteBranch : Bool
  ahead : Nat
  behind : Nat
  hasUncommittedChanges : Bool
  status : SyncStatus
deriving DecidableEq, Repr

/-- Shallow embedding of analyzeBranchState(currentBranch, remote) from
sync.js lines 131-160, with the adapter query results supplied through
RepoInputs. -/
def analyzeBranchState (currentBranch remote : String) (repo : RepoInputs) : BranchState :=
  let ahead := repo.ahead
  let behind := repo.behind
  let remoteBranch := remote ++ "/" ++ currentBranch
  let hasRemoteBranch := repo.branchesAll.contains remoteBranch
  let hasUncommittedChanges := !repo.isClean
  { currentBranch := currentBranch
    remote := remote
    remoteBranch := remoteBranch
    hasRemoteBranch := hasRemoteBranch
    ahead := ahead
    behind := behind
    hasUncommittedChanges := hasUncommittedChanges
    status := determineSyncStatus ahead behind hasRemoteBranch }

/-- Parsed command-line options of the sync command (sync.js lines 15-35);
remote defaults to origin at the CLI layer, so it is stored resolved. -/
structure Options where
  remote : String
  branch : Option String
  rebase : Bool
  merge : Bool
  force : Bool
  forceWithLease : Bool
  dryRun : Bool
  allowUnrelated : Bool
deriving DecidableEq, Repr

/-- Integration strategies handled by getSyncStrategy. -/
inductive Strategy
  | rebase
  | merge
deriving DecidableEq, Repr

/-- Choices offered by the divergence prompt in handleDiverged. -/
inductive DivergedChoice
  | rebase
  | merge
  | force
  | cancel
deriving DecidableEq, Repr

/-- Observable side effects of one sync invocation, in execution order:
adapter mutations plus the probe, the analysis point, the dry-run report
and the stash-restore warning. -/
inductive Event
  | probe (remote : String)
  | fetch (remote : String)
  | analyze
  | dryRunReport
  | stashPush (label : String)
  | stashPop
  | warnPopFailed
  | push
  | forcePush
  | forceWithLeasePush
  | pushSetUpstream
  | rebase (ontoRef : String)
  | merge (ontoRef : String)
deriving DecidableEq, Repr

/-- Errors that propagate out of the sync handlers; each constructor
corresponds to one throw site of sync.js, with the raw adapter message
kept where the source rethrows it unchanged. -/
inductive SyncError
  | reconciliationConflict
  | pushRejected
  | userCancelled
  | forcePushCancelled
  | staleLeaseRejected
  | other (msg : String)
deriving DecidableEq, Repr

/-- Matching of one candidate occurrence of a pattern at the head of a
character list, for the substring test below. -/
def strTakeMatch : List Char → List Char → Bool
  | _, [] => true
  | [], _ :: _ => false
  | c :: cs, d :: ds => c == d && strTakeMatch cs ds

/-- Occurrence of a pattern anywhere inside a character list. -/
def strHasSub : List Char → List Char → Bool
  | [], sub => sub.isEmpty
  | c :: cs, sub => strTakeMatch (c :: cs) sub || strHasSub cs sub

/-- Embedding of the JavaScript String.prototype.includes tests that the
catch blocks of sync.js perform on adapter error messages. -/
def strIncludes (s sub : String) : Bool :=
  strHasSub s.toList sub.toList

/-- Outcomes of the fallible adapter calls made during one invocation of
executeSyncStrategy: each Option String is none on success and carries
the raw error message on failure, the diverged prompt answer and the
force-push confirmation come from the interactive user, and popFails
tells whether the final stash pop fails. -/
structure Env where
  pushError : Option String
  integrateError : Option String
  stashError : Option String
  popFails : Bool
  divergedChoice : DivergedChoice
  forceConfirmed : Bool
  configStrategy : Strategy
deriving DecidableEq, Repr

/-- Shallow embedding of getSyncStrategy(options) from sync.js lines
461-469; the configuration read is supplied as configStrategy. -/
def getSyncStrategy (opts : Options) (configStrategy : Strategy) : Strategy :=
  if opts.rebase then Strategy.rebase
  else if opts.merge then Strategy.merge
  else configStrategy

/-- Push variant selected by handleAhead in sync.js lines 286-294:
force wins over force-with-lease, which wins over a plain push. -/
def aheadPushEvent (opts : Options) : Event :=
  if opts.force then Event.forcePush
  else if opts.forceWithLease then Event.forceWithLeasePush
  else Event.push

/-- Shallow embedding of handleAhead from sync.js lines 282-305: one push
attempt; a rejection whose message mentions both rejected and
non-fast-forward becomes the distinct PushRejected error, anything else
is rethrown unchanged. -/
def handleAhead (opts : Options) (env : Env) : List Event × Option SyncError :=
  let ev := aheadPushEvent opts
  match env.pushError with
  | none => ([ev], none)
  | some msg =>
    if strIncludes msg "rejected" && strIncludes msg "non-fast-forward" then
      ([ev], some SyncError.pushRejected)
    else
      ([ev], some (SyncError.other msg))

/-- Integration event for a resolved strategy and a target remote ref. -/
def integrationEvent (strategy : Strategy) (ontoRef : String) : Event :=
  match strategy with
  | Strategy.rebase => Event.rebase ontoRef
  | Strategy.merge => Event.merge ontoRef

/-- Shallow embedding of handleBehind from sync.js lines 307-328: one
rebase or merge of the remote branch; a message containing CONFLICT
becomes ReconciliationConflict, anything else is rethrown unchanged. -/
def handleBehind (bs : BranchState) (opts : Options) (env : Env) : List Event × Option SyncError :=
  let ev := integrationEvent (getSyncStrategy opts env.configStrategy) bs.remoteBranch
  match env.integrateError with
  | none => ([ev], none)
  | some msg =>
    if strIncludes msg "CONFLICT" then
      ([ev], some SyncError.reconciliationConflict)
    else
      ([ev], some (SyncError.other msg))

/-- Shallow embedding of handleRebaseDiverged from sync.js lines 381-399:
the try block rebases and, only when the rebase succeeded, pushes; the
shared catch maps a CONFLICT message to ReconciliationConflict and
rethrows everything else. -/
def handleRebaseDiverged (bs : BranchState) (env : Env) : List Event × Option SyncError :=
  let attempt : List Event × Option String :=
    match env.integrateError with
    | some msg => ([Event.rebase bs.remoteBranch], some msg)
    | none =>
      match env.pushError with
      | none => ([Event.rebase bs.remoteBranch, Event.push], none)
      | some msg => ([Event.rebase bs.remoteBranch, Event.push], some msg)
  match attempt with
  | (evs, none) => (evs, none)
  | (evs, some msg) =>
    if strIncludes msg "CONFLICT" then
      (evs, some SyncError.reconciliationConflict)
    else
      (evs, some (SyncError.other msg))

/-- Shallow embedding of handleMergeDiverged from sync.js lines 401-418:
same structure as the rebase path with a merge as the integration step. -/
def handleMergeDiverged (bs : BranchState) (env : Env) : List Event × Option SyncError :=
  let attempt : List Event × Option String :=
    match env.integrateError with
    | some msg => ([Event.merge bs.remoteBranch], some msg)
    | none =>
      match env.pushError with
      | none => ([Event.merge bs.remoteBranch, Event.push], none)
      | some msg => ([Event.merge bs.remoteBranch, Event.push], some msg)
  match attempt with
  | (evs, none) => (evs, none)
  | (evs, some msg) =>
    if strIncludes msg "CONFLICT" then
      (evs, some SyncError.reconciliationConflict)
    else
      (evs, some (SyncError.other msg))

/-- Shallow embedding of handleForcePushDiverged from sync.js lines
420-447: a second confirmation guards the push; declining raises; the
push is always force-with-lease; a stale-info message becomes the
distinct stale-lease error. -/
def handleForcePushDiverged (env : Env) : List Event × Option SyncError :=
  if env.forceConfirmed = false then
    ([], some SyncError.forcePushCancelled)
  else
    match env.pushError with
    | none => ([Event.forceWithLeasePush], none)
    | some msg =>
      if strIncludes msg "stale info" then
        ([Event.forceWithLeasePush], some SyncError.staleLeaseRejected)
      else
        ([Event.forceWithLeasePush], some (SyncError.other msg))

/-- Shallow embedding of handleDiverged from sync.js lines 330-379: the
prompt answer dispatches to one of the four paths; cancel raises without
any mutation. -/
def handleDiverged (bs : BranchState) (env : Env) : List Event × Option SyncError :=
  match env.divergedChoice with
  | DivergedChoice.rebase => handleRebaseDiverged bs env
  | DivergedChoice.merge => handleMergeDiverged bs env
  | DivergedChoice.force => handleForcePushDiverged env
  | DivergedChoice.cancel => ([], some SyncError.userCancelled)

/-- Shallow embedding of handleNewBranch from sync.js lines 449-459: one
upstream-setting push; any failure is wrapped into a new message. -/
def handleNewBranch (env : Env) : List Event × Option SyncError :=
  match env.pushError with
  | none => ([Event.pushSetUpstream], none)
  | some msg => ([Event.pushSetUpstream], some (SyncError.other ("Failed to create remote branch: " ++ msg)))

/-- The switch statement of executeSyncStrategy (sync.js lines 238-262)
dispatching on the classification; the default branch throws. -/
def syncDispatch (bs : BranchState) (opts : Options) (env : Env) : List Event × Option SyncError :=
  match bs.status with
  | SyncStatus.upToDate => ([], none)
  | SyncStatus.ahead => handleAhead opts env
  | SyncStatus.behind => handleBehind bs opts env
  | SyncStatus.diverged => handleDiverged bs env
  | SyncStatus.newBranch => handleNewBranch env
  | SyncStatus.unknown => ([], some (SyncError.other "Unknown sync status"))

/-- Stash decision of executeSyncStrategy, sync.js line 232: dirty working
tree and classification different from ahead. -/
def shouldStash (bs : BranchState) : Bool :=
  bs.hasUncommittedChanges && !(bs.status == SyncStatus.ahead)

/-- Label passed to the stash call at sync.js line 234. -/
def stashLabel : String := "easygit-sync-auto-stash"

/-- Shallow embedding of executeSyncStrategy from sync.js lines 229-275:
the conditional stash happens before the try block (a stash failure
therefore propagates without a pop), the switch body runs inside try, and
the finally block pops the stash exactly when one was created, turning a
pop failure into a warning without touching the primary result. -/
def executeSyncStrategy (bs : BranchState) (opts : Options) (env : Env) : List Event × Option SyncError :=
  if shouldStash bs then
    match env.stashError with
    | some msg => ([Event.stashPush stashLabel], some (SyncError.other msg))
    | none =>
      let body := syncDispatch bs opts env
      (Event.stashPush stashLabel :: body.1
         ++ Event.stashPop :: (if env.popFails then [Event.warnPopFailed] else []),
       body.2)
  else
    syncDispatch bs opts env

/-- Stash-prediction branch of showDryRun, sync.js lines 223-226: the
report announces a stash and its restoration whenever the working tree is
dirty, with no condition on the classification. -/
def dryRunPredictsStash (bs : BranchState) : Bool :=
  bs.hasUncommittedChanges

/-- Result of checkNetworkConnectivity as observed by its caller:
success, a propagated error message, or the JavaScript ReferenceError
described below. -/
inductive ConnectivityResult
  | ok
  | raised (msg : String)
  | referenceError
deriving DecidableEq, Repr

/-- Outcomes of the adapter calls made by checkNetworkConnectivity:
the configured remote list and the result of the ls-remote probe
(none on success, the raw message on failure). -/
structure ProbeEnv where
  remotes : List String
  lsRemoteError : Option String
deriving DecidableEq, Repr

/-- Shallow embedding of checkNetworkConnectivity(remote) from sync.js
lines 70-95.  The unknown-remote throw happens inside the same try block,
so its message also flows through the catch.  On an error whose message
indicates a network-class failure, the source then evaluates
this.queueSyncOperation(options); the identifier options is not declared
anywhere in checkNetworkConnectivity's scope (its only parameter is
remote, and no enclosing scope binds options), so JavaScript raises a
ReferenceError at that point and the queueing code never runs.  The
embedding records that exit as referenceError. -/
def checkNetworkConnectivity (remote : String) (penv : ProbeEnv) : ConnectivityResult :=
  let tryError : Option String :=
    if penv.remotes.contains remote = false then
      some ("Remote " ++ remote ++ " not found. Available remotes: "
        ++ String.intercalate ", " penv.remotes)
    else
      penv.lsRemoteError
  match tryError with
  | none => ConnectivityResult.ok
  | some msg =>
    if strIncludes msg "Could not resolve hostname"
        || strIncludes msg "Connection refused"
        || strIncludes msg "Network is unreachable" then
      ConnectivityResult.referenceError
    else
      ConnectivityResult.raised msg

/-- Shallow embedding of execute(options) from sync.js lines 37-68: the
repository check, the connectivity check and fetch (both skipped under
dry-run), the branch-state analysis, and the dispatch to the dry-run
report or to executeSyncStrategy. -/
def execute (opts : Options) (repo : RepoInputs) (penv : ProbeEnv) (env : Env) :
    List Event × Option SyncError :=
  if repo.isRepo = false then
    ([], some (SyncError.other "Not in a Git repository"))
  else if opts.dryRun then
    ([Event.analyze, Event.dryRunReport], none)
  else
    match checkNetworkConnectivity opts.remote penv with
    | ConnectivityResult.referenceError =>
      ([Event.probe opts.remote], some (SyncError.other "ReferenceError: options is not defined"))
    | ConnectivityResult.raised msg =>
      ([Event.probe opts.remote], some (SyncError.other msg))
    | ConnectivityResult.ok =>
      let branch := match opts.branch with
        | some b => b
        | none => repo.currentBranch
      let bs := analyzeBranchState branch opts.remote repo
      let body := executeSyncStrategy bs opts env
      (Event.probe opts.remote :: Event.fetch opts.remote :: Event.analyze :: body.1, body.2)

/-- Record persisted by queueSyncOperation, sync.js lines 112-118. -/
structure QueuedOperation where
  timestamp : String
  workingDir : String
  branch : String
  options : Options
  id : String
deriving DecidableEq, Repr

/-- Whether queueSyncOperation completed its writes or only emitted the
could-not-queue warning of its catch block; either way it returns
normally. -/
inductive QueueOutcome
  | queued
  | warnedOnly
deriving DecidableEq, Repr

/-- Outcomes of the I/O performed by queueSyncOperation: directory
creation, the parse of the existing queue file (none when the file is
missing or invalid), the current-branch query, the final write, and the
clock values used to build the new record. -/
structure QueueEnv where
  mkdirFails : Bool
  priorStore : Option (List QueuedOperation)
  branchLookupFails : Bool
  writeFails : Bool
  nowIso : String
  nowMs : String
  workingDir : String
  currentBranch : String
deriving DecidableEq, Repr

/-- Record construction at sync.js lines 112-118. -/
def mkQueuedOperation (qenv : QueueEnv) (opts : Options) : QueuedOperation :=
  { timestamp := qenv.nowIso
    workingDir := qenv.workingDir
    branch := qenv.currentBranch
    options := opts
    id := qenv.nowMs }

/-- Shallow embedding of queueSyncOperation(options) from sync.js lines
97-129: mkdir, read of the existing queue (falling back to an empty list
in its inner catch), append of one new record, and write; the second
component is the stored queue content afterward.  Any failing step lands
in the outer catch, which warns and returns normally. -/
def queueSyncOperation (qenv : QueueEnv) (opts : Options) :
    QueueOutcome × Option (List QueuedOperation) :=
  if qenv.mkdirFails then (QueueOutcome.warnedOnly, qenv.priorStore)
  else
    let queue := match qenv.priorStore with
      | some entries => entries
      | none => []
    if qenv.branchLookupFails then (QueueOutcome.warnedOnly, qenv.priorStore)
    else if qenv.writeFails then (QueueOutcome.warnedOnly, qenv.priorStore)
    else (QueueOutcome.queued, some (queue ++ [mkQueuedOperation qenv opts]))

/-- Events that correspond to git history or ref mutations performed by
the dispatch handlers (as opposed to stash bookkeeping, probing,
analysis, or reporting). -/
def isGitActionEvent : Event → Bool
  | Event.push => true
  | Event.forcePush => true
  | Event.forceWithLeasePush => true
  | Event.pushSetUpstream => true
  | Event.rebase _ => true
  | Event.merge _ => true
  | _ => false

/-- Events that attempt to push to the remote in any mode. -/
def isPushEvent : Event → Bool
  | Event.push => true
  | Event.forcePush => true
  | Event.forceWithLeasePush => true
  | Event.pushSetUpstream => true
  | _ => false

/-- Events that fetch from a remote. -/
def isFetchEvent : Event → Bool
  | Event.fetch _ => true
  | _ => false

/-- Labels of the stash entries created during a trace. -/
def stashLabelsOf (tr : List Event) : List String :=
  tr.filterMap fun e => match e with
    | Event.stashPush s => some s
    | _ => none

/-- Concrete fixture: a sync invocation with every option at its default. -/
def optsPlain : Options := ⟨"origin", none, false, false, false, false, false, false⟩

/-- Concrete fixture: a dry-run invocation. -/
def optsDry : Options := ⟨"origin", none, false, false, false, false, true, false⟩

/-- Concrete fixture: an invocation passing both force options. -/
def optsBothForce : Options := ⟨"origin", none, false, false, true, true, false, false⟩

/-- Concrete fixture: every adapter call succeeds. -/
def envBase : Env := ⟨none, none, none, false, DivergedChoice.cancel, false, Strategy.rebase⟩

/-- Concrete fixture: all adapter calls succeed except the final stash
pop. -/
def envPopFail : Env := ⟨none, none, none, true, DivergedChoice.cancel, false, Strategy.rebase⟩

/-- Concrete fixture: a git conflict message. -/
def conflictMsg : String := "CONFLICT (content): merge conflict in a.txt"

/-- Concrete fixture: the user picks the rebase path at the divergence
prompt and the rebase stops on a conflict. -/
def envConflictRebase : Env :=
  ⟨none, some conflictMsg, none, false, DivergedChoice.rebase, false, Strategy.rebase⟩

/-- Concrete fixture: the merge path at the divergence prompt stops on a
conflict. -/
def envConflictMerge : Env :=
  ⟨none, some conflictMsg, none, false, DivergedChoice.merge, false, Strategy.rebase⟩

/-- Concrete fixture: a clean up-to-date repository on branch main. -/
def repoStd : RepoInputs := ⟨true, "main", 0, 0, ["origin/main"], true⟩

/-- Concrete fixture: three commits ahead with a dirty working tree. -/
def repoAheadDirty : RepoInputs := ⟨true, "main", 3, 0, ["origin/main"], false⟩

/-- Concrete fixture: two commits behind with a dirty working tree. -/
def repoBehindDirty : RepoInputs := ⟨true, "main", 0, 2, ["origin/main"], false⟩

/-- Concrete fixture: diverged history with a dirty working tree. -/
def repoDivergedDirty : RepoInputs := ⟨true, "main", 2, 3, ["origin/main"], false⟩

/-- Branch state computed for the ahead-and-dirty fixture. -/
def bsAheadDirty : BranchState := analyzeBranchState "main" "origin" repoAheadDirty

/-- Branch state computed for the behind-and-dirty fixture. -/
def bsBehindDirty : BranchState := analyzeBranchState "main" "origin" repoBehindDirty

/-- Branch state computed for the diverged-and-dirty fixture. -/
def bsDivergedDirty : BranchState := analyzeBranchState "main" "origin" repoDivergedDirty

/-- Concrete fixture: the probe of origin succeeds. -/
def probeEnvOk : ProbeEnv := ⟨["origin"], none⟩

/-- Concrete fixture: the probe of origin fails with a hostname
resolution error. -/
def probeEnvNetFail : ProbeEnv := ⟨["origin"], some "ssh: Could not resolve hostname github.com"⟩

/-- Concrete fixture: two records already sitting in the offline queue. -/
def priorOps : List QueuedOperation :=
  [⟨"2026-10-01T10:00:00Z", "/home/u/repo", "main", optsPlain, "1759312800000"⟩,
   ⟨"2026-10-02T11:30:00Z", "/home/u/repo", "dev", optsPlain, "1759404600000"⟩]

/-- Concrete fixture: queue I/O succeeds against the two prior records. -/
def qenvOk : QueueEnv :=
  ⟨false, some priorOps, false, false, "2026-10-11T09:00:00Z", "1760173200000", "/home/u/repo", "main"⟩

/-- Concrete fixture: the final queue write fails. -/
def qenvWriteFail : QueueEnv :=
  ⟨false, some priorOps, false, true, "2026-10-11T09:00:00Z", "1760173200000", "/home/u/repo", "main"⟩

/-- C1: for every pair of non-negative counts and every remote-existence
flag, the source classification agrees with the specification rule (hence
it is exhaustive and mutually exclusive), it never yields the unknown
fall-through value, and the status recorded by analyzeBranchState does not
depend on the dirty-tree query (two repositories differing only in
isClean receive the same status). -/
theorem determineSyncStatus_matches_spec (a b : Nat) (r : Bool) :
    determineSyncStatus a b r = specClassification r a b
    ∧ determineSyncStatus a b r ≠ SyncStatus.unknown
    ∧ ∀ (c rem : String) (repo₁ repo₂ : RepoInputs),
        repo₁.ahead = repo₂.ahead → repo₁.behind = repo₂.behind →
        repo₁.branchesAll = repo₂.branchesAll →
        (analyzeBranchState c rem repo₁).status = (analyzeBranchState c rem repo₂).status := by
  refine ⟨?_, ?_, ?_⟩
  · unfold determineSyncStatus specClassification
    rcases r with _ | _ <;> rcases a with _ | a <;> rcases b with _ | b <;> simp
  · unfold determineSyncStatus
    rcases r with _ | _ <;> rcases a with _ | a <;> rcases b with _ | b <;> simp
  · intro c rem repo₁ repo₂ ha hb hbr
    simp [analyzeBranchState, ha, hb, hbr]

/-- Witness for C1 at concrete inputs: three ahead, zero behind, remote
branch present matches the specification rule, and a clean and a dirty
repository with those counts receive the same status. -/
theorem determineSyncStatus_matches_spec_witness :
    determineSyncStatus 3 0 true = specClassification true 3 0
    ∧ (analyzeBranchState "main" "origin" repoAheadDirty).status
        = (analyzeBranchState "main" "origin" ⟨true, "main", 3, 0, ["origin/main"], true⟩).status :=
  ⟨(determineSyncStatus_matches_spec 3 0 true).1,
   (determineSyncStatus_matches_spec 3 0 true).2.2 "main" "origin" repoAheadDirty
     ⟨true, "main", 3, 0, ["origin/main"], true⟩ rfl rfl rfl⟩

/-- The ahead handler performs exactly one push attempt, of the variant
selected by the option flags. -/
lemma handleAhead_fst (opts : Options) (env : Env) :
    (handleAhead opts env).1 = [aheadPushEvent opts] := by
  unfold handleAhead
  rcases env.pushError with _ | msg
  · rfl
  · dsimp only
    split <;> rfl

/-- The behind handler performs exactly one integration attempt, of the
resolved strategy. -/
lemma handleBehind_fst (bs : BranchState) (opts : Options) (env : Env) :
    (handleBehind bs opts env).1
      = [integrationEvent (getSyncStrategy opts env.configStrategy) bs.remoteBranch] := by
  unfold handleBehind
  rcases env.integrateError with _ | msg
  · rfl
  · dsimp only
    split <;> rfl

/-- The rebase-then-push divergence path performs a rebase and, only when
it succeeded, a push. -/
lemma handleRebaseDiverged_fst (bs : BranchState) (env : Env) :
    (handleRebaseDiverged bs env).1
      = match env.integrateError with
        | some _ => [Event.rebase bs.remoteBranch]
        | none => [Event.rebase bs.remoteBranch, Event.push] := by
  unfold handleRebaseDiverged
  rcases env.integrateError with _ | imsg
  · rcases env.pushError with _ | pmsg
    · rfl
    · dsimp only
      split <;> rfl
  · dsimp only
    split <;> rfl

/-- The merge-then-push divergence path performs a merge and, only when
it succeeded, a push. -/
lemma handleMergeDiverged_fst (bs : BranchState) (env : Env) :
    (handleMergeDiverged bs env).1
      = match env.integrateError with
        | some _ => [Event.merge bs.remoteBranch]
        | none => [Event.merge bs.remoteBranch, Event.push] := by
  unfold handleMergeDiverged
  rcases env.integrateError with _ | imsg
  · rcases env.pushError with _ | pmsg
    · rfl
    · dsimp only
      split <;> rfl
  · dsimp only
    split <;> rfl

/-- The force divergence path pushes only after the extra confirmation. -/
lemma handleForcePushDiverged_fst (env : Env) :
    (handleForcePushDiverged env).1
      = if env.forceConfirmed = false then [] else [Event.forceWithLeasePush] := by
  unfold handleForcePushDiverged
  split
  · rfl
  · rcases env.pushError with _ | msg
    · rfl
    · dsimp only
      split <;> rfl

/-- The new-branch handler performs exactly one upstream-setting push. -/
lemma handleNewBranch_fst (env : Env) :
    (handleNewBranch env).1 = [Event.pushSetUpstream] := by
  unfold handleNewBranch
  rcases env.pushError with _ | msg <;> rfl

/-- The push variant chosen for the ahead state is a git action. -/
lemma isGitActionEvent_aheadPushEvent (opts : Options) :
    isGitActionEvent (aheadPushEvent opts) = true := by
  unfold aheadPushEvent
  split
  · rfl
  · split <;> rfl

/-- Integration events are git actions for either strategy. -/
lemma isGitActionEvent_integrationEvent (s : Strategy) (r : String) :
    isGitActionEvent (integrationEvent s r) = true := by
  cases s <;> rfl

/-- Every event emitted by the executor's dispatch switch is a git
action: the handlers never touch the stash, never probe, fetch or
report. -/
lemma syncDispatch_events_git (bs : BranchState) (opts : Options) (env : Env) :
    ∀ e ∈ (syncDispatch bs opts env).1, isGitActionEvent e = true := by
  intro e he
  unfold syncDispatch at he
  cases hst : bs.status <;> rw [hst] at he
  case upToDate => simp at he
  case ahead =>
    rw [handleAhead_fst] at he
    simp only [List.mem_singleton] at he
    rw [he]
    exact isGitActionEvent_aheadPushEvent opts
  case behind =>
    rw [handleBehind_fst] at he
    simp only [List.mem_singleton] at he
    rw [he]
    exact isGitActionEvent_integrationEvent _ _
  case diverged =>
    unfold handleDiverged at he
    cases hdc : env.divergedChoice <;> rw [hdc] at he
    case rebase =>
      rw [handleRebaseDiverged_fst] at he
      cases hie : env.integrateError <;> rw [hie] at he
      case none =>
        simp at he
        rcases he with he | he <;> simp [he, isGitActionEvent]
      case some imsg =>
        simp at he
        simp [he, isGitActionEvent]
    case merge =>
      rw [handleMergeDiverged_fst] at he
      cases hie : env.integrateError <;> rw [hie] at he
      case none =>
        simp at he
        rcases he with he | he <;> simp [he, isGitActionEvent]
      case some imsg =>
        simp at he
        simp [he, isGitActionEvent]
    case force =>
      rw [handleForcePushDiverged_fst] at he
      cases hfc : env.forceConfirmed <;> rw [hfc] at he <;> simp at he
      simp [he, isGitActionEvent]
    case cancel => simp at he
  case newBranch =>
    rw [handleNewBranch_fst] at he
    simp only [List.mem_singleton] at he
    simp [he, isGitActionEvent]
  case unknown => simp at he

/-- No stash-pop event is emitted inside the bracketed dispatch. -/
lemma syncDispatch_no_stashPop (bs : BranchState) (opts : Options) (env : Env) :
    Event.stashPop ∉ (syncDispatch bs opts env).1 := by
  intro h
  have hg := syncDispatch_events_git bs opts env Event.stashPop h
  simp [isGitActionEvent] at hg

/-- No stash-push event is emitted inside the bracketed dispatch. -/
lemma syncDispatch_no_stashPush (bs : BranchState) (opts : Options) (env : Env) (s : String) :
    Event.stashPush s ∉ (syncDispatch bs opts env).1 := by
  intro h
  have hg := syncDispatch_events_git bs opts env (Event.stashPush s) h
  simp [isGitActionEvent] at hg

/-- C4: the executor attempts a stash push exactly for the branch states
whose working tree is dirty and whose classification differs from ahead;
in particular a dirty tree in the ahead state is never stashed. -/
theorem executeSyncStrategy_stash_decision (bs : BranchState) (opts : Options) (env : Env) :
    (Event.stashPush stashLabel ∈ (executeSyncStrategy bs opts env).1)
      ↔ (bs.hasUncommittedChanges = true ∧ bs.status ≠ SyncStatus.ahead) := by
  have hiff : shouldStash bs = true
      ↔ (bs.hasUncommittedChanges = true ∧ bs.status ≠ SyncStatus.ahead) := by
    unfold shouldStash
    rcases hd : bs.hasUncommittedChanges <;> simp [hd]
  rw [← hiff]
  unfold executeSyncStrategy
  rcases hss : shouldStash bs
  · simp only [Bool.false_eq_true, if_neg]
    constructor
    · intro h
      exact absurd h (syncDispatch_no_stashPush bs opts env stashLabel)
    · intro h
      cases h
  · simp only [if_pos]
    rcases hse : env.stashError with _ | msg <;> simp

/-- Witness for C4: the dirty behind-state fixture is stashed. -/
theorem executeSyncStrategy_stash_decision_witness :
    Event.stashPush stashLabel ∈ (executeSyncStrategy bsBehindDirty optsPlain envBase).1 :=
  (executeSyncStrategy_stash_decision bsBehindDirty optsPlain envBase).mpr
    ⟨rfl, by decide⟩

/-- C10: in the ahead state, the force option always selects the
unconditional force push, even when force-with-lease is also set; the
lease push is used only when force is absent, and a plain push only when
both are absent. -/
theorem handleAhead_force_precedence (opts : Options) (env : Env) :
    (opts.force = true → (handleAhead opts env).1 = [Event.forcePush])
    ∧ (opts.force = false → opts.forceWithLease = true →
        (handleAhead opts env).1 = [Event.forceWithLeasePush])
    ∧ (opts.force = false → opts.forceWithLease = false →
        (handleAhead opts env).1 = [Event.push]) := by
  refine ⟨?_, ?_, ?_⟩
  · intro hf
    rw [handleAhead_fst]
    simp [aheadPushEvent, hf]
  · intro hf hl
    rw [handleAhead_fst]
    simp [aheadPushEvent, hf, hl]
  · intro hf hl
    rw [handleAhead_fst]
    simp [aheadPushEvent, hf, hl]

/-- Witness for C10: with both force flags set, the unconditional force
push is the one performed. -/
theorem handleAhead_force_precedence_witness :
    (handleAhead optsBothForce envBase).1 = [Event.forcePush] :=
  (handleAhead_force_precedence optsBothForce envBase).1 rfl

/-- C2: whenever the wrapper creates a stash, exactly one stash pop is
attempted regardless of how the bracketed dispatch exits (success,
conflict, rejected push, cancellation), the primary result of the
bracketed dispatch is returned unchanged even when the pop fails (the
failure only adds a warning), and when no stash is created no pop is
attempted. -/
theorem executeSyncStrategy_pop_pairing (bs : BranchState) (opts : Options) (env : Env) :
    (shouldStash bs = true → env.stashError = none →
       (executeSyncStrategy bs opts env).1.count Event.stashPop = 1
       ∧ (executeSyncStrategy bs opts env).2 = (syncDispatch bs opts env).2
       ∧ (env.popFails = true → Event.warnPopFailed ∈ (executeSyncStrategy bs opts env).1))
    ∧ (shouldStash bs = false →
       (executeSyncStrategy bs opts env).1.count Event.stashPop = 0) := by
  have hbody : (syncDispatch bs opts env).1.count Event.stashPop = 0 :=
    List.count_eq_zero.mpr (syncDispatch_no_stashPop bs opts env)
  constructor
  · intro hs hn
    refine ⟨?_, ?_, ?_⟩
    · cases hpf : env.popFails <;>
        simp [executeSyncStrategy, hs, hn, hpf, List.count_cons, List.count_append, hbody]
    · simp [executeSyncStrategy, hs, hn]
    · intro hpf
      simp [executeSyncStrategy, hs, hn, hpf]
  · intro hs
    simp [executeSyncStrategy, hs, hbody]

/-- Witness for C2: in the dirty behind-state fixture with a failing pop,
one pop is attempted, the warning is emitted, and the dispatch result is
preserved. -/
theorem executeSyncStrategy_pop_pairing_witness :
    (executeSyncStrategy bsBehindDirty optsPlain envPopFail).1.count Event.stashPop = 1
    ∧ Event.warnPopFailed ∈ (executeSyncStrategy bsBehindDirty optsPlain envPopFail).1 :=
  ⟨((executeSyncStrategy_pop_pairing bsBehindDirty optsPlain envPopFail).1 (by decide) rfl).1,
   ((executeSyncStrategy_pop_pairing bsBehindDirty optsPlain envPopFail).1 (by decide) rfl).2.2 rfl⟩

/-- C7: in the diverged state, for both the rebase-then-push and the
merge-then-push choices, a conflict raised by the integration step
propagates as the reconciliation-conflict error and no push of any kind
is attempted. -/
theorem handleDiverged_conflict_blocks_push (bs : BranchState) (env : Env) (msg : String)
    (hc : env.divergedChoice = DivergedChoice.rebase ∨ env.divergedChoice = DivergedChoice.merge)
    (hi : env.integrateError = some msg)
    (hm : strIncludes msg "CONFLICT" = true) :
    (handleDiverged bs env).2 = some SyncError.reconciliationConflict
    ∧ ∀ e ∈ (handleDiverged bs env).1, isPushEvent e = false := by
  rcases hc with hc | hc
  · refine ⟨?_, ?_⟩
    · simp [handleDiverged, hc, handleRebaseDiverged, hi, hm]
    · intro e he
      simp only [handleDiverged, hc] at he
      rw [handleRebaseDiverged_fst, hi] at he
      simp at he
      simp [he, isPushEvent]
  · refine ⟨?_, ?_⟩
    · simp [handleDiverged, hc, handleMergeDiverged, hi, hm]
    · intro e he
      simp only [handleDiverged, hc] at he
      rw [handleMergeDiverged_fst, hi] at he
      simp at he
      simp [he, isPushEvent]

/-- Witness for C7: the concrete conflict fixture on the rebase choice
yields the reconciliation-conflict error. -/
theorem handleDiverged_conflict_blocks_push_witness :
    (handleDiverged bsDivergedDirty envConflictRebase).2
      = some SyncError.reconciliationConflict :=
  (handleDiverged_conflict_blocks_push bsDivergedDirty envConflictRebase conflictMsg
    (Or.inl rfl) rfl (by decide)).1

/-- C8 counterexample: two distinct invocations (different branch states)
both create a stash and both use the very same label, so labels are not
unique per invocation. -/
theorem stashLabel_collision_counterexample :
    bsBehindDirty ≠ bsDivergedDirty
    ∧ stashLabelsOf (executeSyncStrategy bsBehindDirty optsPlain envBase).1 = [stashLabel]
    ∧ stashLabelsOf (executeSyncStrategy bsDivergedDirty optsPlain envBase).1 = [stashLabel] :=
  ⟨by decide, by decide, by decide⟩

/-- C8 amended: the label attached to the auto-created stash is the fixed
string easygit-sync-auto-stash in every invocation; it carries no
per-invocation component. -/
theorem stashLabel_constant (bs : BranchState) (opts : Options) (env : Env) :
    ∀ s, Event.stashPush s ∈ (executeSyncStrategy bs opts env).1
      → s = "easygit-sync-auto-stash" := by
  intro s hmem
  unfold executeSyncStrategy at hmem
  by_cases hss : shouldStash bs = true
  · simp only [hss, if_true] at hmem
    cases hse : env.stashError <;> rw [hse] at hmem
    · cases hpf : env.popFails <;> rw [hpf] at hmem <;> simp at hmem <;>
        rcases hmem with hmem | hmem
      · simpa [stashLabel] using hmem
      · exact absurd hmem (syncDispatch_no_stashPush bs opts env s)
      · simpa [stashLabel] using hmem
      · exact absurd hmem (syncDispatch_no_stashPush bs opts env s)
    · simp at hmem
      simpa [stashLabel] using hmem
  · rw [if_neg hss] at hmem
    exact absurd hmem (syncDispatch_no_stashPush bs opts env s)

/-- Witness for C8 amended: the label created by the dirty behind-state
fixture is the constant. -/
theorem stashLabel_constant_witness :
    stashLabel = "easygit-sync-auto-stash" :=
  stashLabel_constant bsBehindDirty optsPlain envBase stashLabel (by decide)

/-- C6 counterexample: for a dirty working tree in the ahead state the
dry-run report predicts a stash while the executor creates none, so the
two predicates differ. -/
theorem dryRun_stash_prediction_counterexample :
    dryRunPredictsStash bsAheadDirty = true
    ∧ Event.stashPush stashLabel ∉ (executeSyncStrategy bsAheadDirty optsPlain envBase).1 :=
  ⟨rfl, by decide⟩

/-- C6 amended: the dry-run report predicts a stash exactly when the
working tree is dirty, with no condition on the classification; this
agrees with the executor's stash decision precisely when the tree is
clean or the classification differs from ahead. -/
theorem dryRun_stash_prediction_vs_executor (bs : BranchState) :
    dryRunPredictsStash bs = bs.hasUncommittedChanges
    ∧ ((dryRunPredictsStash bs = shouldStash bs) ↔
        (bs.hasUncommittedChanges = false ∨ bs.status ≠ SyncStatus.ahead)) := by
  refine ⟨rfl, ?_⟩
  unfold dryRunPredictsStash shouldStash
  rcases hd : bs.hasUncommittedChanges <;> rcases hst : bs.status <;> simp [hd, hst]

/-- Witness for C6 amended: on the dirty behind-state fixture the two
predicates agree. -/
theorem dryRun_stash_prediction_vs_executor_witness :
    dryRunPredictsStash bsBehindDirty = shouldStash bsBehindDirty :=
  (dryRun_stash_prediction_vs_executor bsBehindDirty).2.mpr (Or.inr (by decide))

/-- C3: evaluating the embedded code at a probe failure whose message
indicates a network-class error shows the invocation raising — the
reference to the unbound identifier options — instead of queueing: the
connectivity check exits with the ReferenceError, the surrounding
execute call terminates with that error rather than a queued outcome,
and no fetch occurs. -/
theorem checkNetworkConnectivity_network_failure_raises :
    checkNetworkConnectivity "origin" probeEnvNetFail = ConnectivityResult.referenceError
    ∧ (execute optsPlain repoStd probeEnvNetFail envBase).2
        = some (SyncError.other "ReferenceError: options is not defined")
    ∧ Event.fetch "origin" ∉ (execute optsPlain repoStd probeEnvNetFail envBase).1 :=
  ⟨by decide, by decide, by decide⟩

/-- C5 counterexample: a dry-run invocation analyzes the branch state
without any preceding fetch, so the counts used for classification are
not refreshed in that invocation. -/
theorem execute_dryRun_no_fetch_counterexample :
    Event.analyze ∈ (execute optsDry repoStd probeEnvOk envBase).1
    ∧ Event.fetch "origin" ∉ (execute optsDry repoStd probeEnvOk envBase).1 :=
  ⟨by decide, by decide⟩

/-- C5 amended: in every invocation without the dry-run option that
reaches branch-state analysis, the probe and the fetch of the requested
remote complete, in that order, before the analysis; with dry-run set no
fetch occurs at all and analysis uses existing local state. -/
theorem execute_fetch_precedes_analysis (opts : Options) (repo : RepoInputs)
    (penv : ProbeEnv) (env : Env) :
    (opts.dryRun = false → Event.analyze ∈ (execute opts repo penv env).1 →
      (execute opts repo penv env).1.take 3
        = [Event.probe opts.remote, Event.fetch opts.remote, Event.analyze])
    ∧ (opts.dryRun = true →
      ∀ e ∈ (execute opts repo penv env).1, isFetchEvent e = false) := by
  constructor
  · intro hd hmem
    rcases hr : repo.isRepo
    · simp [execute, hr] at hmem
    · rcases hcn : checkNetworkConnectivity opts.remote penv
      · simp [execute, hd, hr, hcn]
      · simp [execute, hd, hr, hcn] at hmem
      · simp [execute, hd, hr, hcn] at hmem
  · intro hd e he
    rcases hr : repo.isRepo
    · simp [execute, hr] at he
    · simp [execute, hd, hr] at he
      rcases he with he | he <;> simp [he, isFetchEvent]

/-- Witness for C5 amended: a plain invocation on the standard fixture
probes, fetches and only then analyzes. -/
theorem execute_fetch_precedes_analysis_witness :
    (execute optsPlain repoStd probeEnvOk envBase).1.take 3
      = [Event.probe "origin", Event.fetch "origin", Event.analyze] :=
  (execute_fetch_precedes_analysis optsPlain repoStd probeEnvOk envBase).1 rfl (by decide)

/-- C9: when every I/O step succeeds, queueing stores exactly the prior
entries, unchanged and in their original order, followed by the one new
record; when any I/O step fails, the operation only warns, returns
normally, and leaves the stored entries untouched. -/
theorem queueSyncOperation_appends (qenv : QueueEnv) (opts : Options)
    (prior : List QueuedOperation) (hp : qenv.priorStore = some prior) :
    (qenv.mkdirFails = false → qenv.branchLookupFails = false → qenv.writeFails = false →
      queueSyncOperation qenv opts
        = (QueueOutcome.queued, some (prior ++ [mkQueuedOperation qenv opts])))
    ∧ ((qenv.mkdirFails = true ∨ qenv.branchLookupFails = true ∨ qenv.writeFails = true) →
      (queueSyncOperation qenv opts).1 = QueueOutcome.warnedOnly
      ∧ (queueSyncOperation qenv opts).2 = some prior) := by
  constructor
  · intro h1 h2 h3
    simp [queueSyncOperation, h1, h2, h3, hp]
  · intro h
    rcases h with h | h | h
    · simp [queueSyncOperation, h, hp]
    · rcases hm : qenv.mkdirFails <;> simp [queueSyncOperation, hm, h, hp]
    · rcases hm : qenv.mkdirFails <;> rcases hb : qenv.branchLookupFails <;>
        simp [queueSyncOperation, hm, hb, h, hp]

/-- Witness for C9: on the concrete two-entry store the successful run
appends the new record after the existing ones, and the failing-write
run only warns. -/
theorem queueSyncOperation_appends_witness :
    queueSyncOperation qenvOk optsPlain
      = (QueueOutcome.queued, some (priorOps ++ [mkQueuedOperation qenvOk optsPlain]))
    ∧ (queueSyncOperation qenvWriteFail optsPlain).1 = QueueOutcome.warnedOnly :=
  ⟨(queueSyncOperation_appends qenvOk optsPlain priorOps rfl).1 rfl rfl rfl,
   ((queueSyncOperation_appends qenvWriteFail optsPlain priorOps rfl).2
     (Or.inr (Or.inr rfl))).1⟩

end EasyGit
